import Mathlib

/-!
Verification of the AstroPsyche response-analysis core: the keyword-based
response analyzers (PsychologicalQuestionnaire.tsx, EnhancedPsychQuestionnaire.tsx,
conversationalAI.ts) and the profile aggregator
(generatePsychologicalProfile in PsychologicalQuestionnaire.tsx), plus the
PsychologySession completion test.

Modelling conventions:
* JS strings are embedded as `List Char`; `String.prototype.split`,
  `toLowerCase` and `includes` are embedded directly on character lists.
* JS numbers are embedded as `ℚ`.  The only reachable division by zero in the
  aggregator is `0/0` on an empty answer list, which is `NaN` in JS; averages
  are therefore embedded in a type `JQ` that carries an explicit `nan` value,
  with JS comparison semantics (`NaN > x` and `NaN < x` are both false).
* `Math.round(x*100)/100` is embedded as `round2`; `Math.round` rounds half
  away from zero for the non-negative values that occur here, which agrees
  with Mathlib's `round` (half up) on non-negative rationals.
* `Array.prototype.sort` is stable per ES2019; it is embedded as a stable
  descending insertion sort.
* Object key iteration order for non-numeric string keys is insertion order
  in JS; emotion histograms are embedded as insertion-ordered assoc lists.
-/

namespace AstroPsyche

/-- `p` is a leading segment of `s` (character lists). -/
def hasPfx : List Char → List Char → Bool
  | _, [] => true
  | [], _ :: _ => false
  | c :: cs, d :: ds => c == d && hasPfx cs ds

/-- JS `s.includes(p)`: `p` occurs contiguously inside `s`. -/
def hasSub : List Char → List Char → Bool
  | [], p => hasPfx [] p
  | c :: cs, p => hasPfx (c :: cs) p || hasSub cs p

/-- JS `String.prototype.split` with a character predicate: splits at every
separator character, keeping empty pieces; always returns at least one piece. -/
def splitChars (sep : Char → Bool) : List Char → List (List Char)
  | [] => [[]]
  | c :: cs =>
    match splitChars sep cs with
    | [] => [[]]
    | w :: ws => if sep c then [] :: w :: ws else (c :: w) :: ws

/-- `text.toLowerCase().split(/\s+/).filter(word => word.length > 0)`
(the tokenizer shared by both questionnaire analyzers). -/
def wordsOf (text : List Char) : List (List Char) :=
  (splitChars Char.isWhitespace (text.map Char.toLower)).filter
    (fun w => w.length > 0)

/-- `message.toLowerCase().split(' ')` (the conversationalAI tokenizer:
single-space separator, empty pieces kept). -/
def wordsRaw (text : List Char) : List (List Char) :=
  splitChars (fun c => c == ' ') (text.map Char.toLower)

/-- Number of keywords of `kws` that occur as a substring of some token
(`keywords.filter(k => words.some(w => w.includes(k))).length`). -/
def countKeywordMatches (words : List (List Char)) (kws : List String) : Nat :=
  (kws.filter (fun k => words.any (fun w => hasSub w k.toList))).length

/-- Number of tokens containing some keyword of `kws`
(`words.filter(w => kws.some(k => w.includes(k))).length`). -/
def countWordsMatching (words : List (List Char)) (kws : List String) : Nat :=
  (words.filter (fun w => kws.any (fun k => hasSub w k.toList))).length

/-- Body of the emotion-selection loop: `if (matches > maxMatches) { ... }` —
replace the leading candidate only on a strictly greater match count. -/
def pickStep (acc p : String × Nat) : String × Nat :=
  if p.2 > acc.2 then p else acc

/-- The emotion-selection loop, starting from `('neutral', 0)`. -/
def pickTop (l : List (String × Nat)) : String × Nat :=
  l.foldl pickStep ("neutral", 0)

/-- Per-emotion match counts, in the insertion order of the keyword map. -/
def emotionTable (km : List (String × List String)) (words : List (List Char)) :
    List (String × Nat) :=
  km.map (fun p => (p.1, countKeywordMatches words p.2))

/-- The analyzers' emotion detection over a keyword map `km`. -/
def detectEmotionFrom (km : List (String × List String))
    (words : List (List Char)) : String :=
  (pickTop (emotionTable km words)).1

/-- JS `Math.min` on rationals, written executably. -/
def qmin (a b : ℚ) : ℚ := if a ≤ b then a else b

/-- JS `Math.max` on rationals, written executably. -/
def qmax (a b : ℚ) : ℚ := if a ≤ b then b else a

/-- JS `Math.round`: round half toward positive infinity, `⌊x + 1/2⌋`,
written with the executable `Rat.floor` so that the kernel can evaluate it. -/
def roundQ (x : ℚ) : ℤ := (x + 1/2).floor

/-- `Math.round(x * 100) / 100`. -/
def round2 (x : ℚ) : ℚ := ((roundQ (x * 100) : ℤ) : ℚ) / 100

/-- The 5-component tone vector. -/
structure Tone where
  confidence : ℚ
  energy : ℚ
  verbosity : ℚ
  hesitation : ℚ
  authenticity : ℚ
deriving DecidableEq, Repr

/-- Emotion keyword map of `analyzeResponse` in PsychologicalQuestionnaire.tsx. -/
def psychEmotionKeywords : List (String × List String) :=
  [("joy", ["happy", "excited", "love", "amazing", "wonderful", "great",
            "fantastic", "joy", "delighted"]),
   ("sadness", ["sad", "disappointed", "hurt", "lonely", "depressed", "down",
                "melancholy", "grief"]),
   ("anger", ["angry", "frustrated", "annoyed", "mad", "furious", "irritated",
              "rage", "upset"]),
   ("fear", ["scared", "worried", "anxious", "nervous", "afraid", "concerned",
             "terrified", "panic"]),
   ("surprise", ["surprised", "shocked", "unexpected", "amazed", "wow",
                 "astonished"]),
   ("contemplative", ["think", "reflect", "consider", "ponder", "wonder",
                      "contemplate", "introspect"]),
   ("neutral", ["okay", "fine", "normal", "usual", "regular", "alright",
                "standard"])]

def psychEnergyKeywords : List String :=
  ["very", "really", "extremely", "absolutely", "totally", "completely",
   "definitely"]

def psychHesitationKeywords : List String :=
  ["maybe", "perhaps", "think", "probably", "might", "sort", "kind",
   "somewhat", "possibly"]

/-- `analyzeResponse` of PsychologicalQuestionnaire.tsx. -/
def psychAnalyzeResponse (text : List Char) : String × Tone :=
  let words := wordsOf text
  let wordCount := words.length
  let detectedEmotion := detectEmotionFrom psychEmotionKeywords words
  let confidence : ℚ := qmin 1 ((wordCount : ℚ) / 15)
  let energy : ℚ :=
    (countWordsMatching words psychEnergyKeywords : ℚ) /
      ((max wordCount 1 : ℕ) : ℚ)
  let verbosity : ℚ := qmin 1 ((wordCount : ℚ) / 30)
  let hesitation : ℚ :=
    (countWordsMatching words psychHesitationKeywords : ℚ) /
      ((max wordCount 1 : ℕ) : ℚ)
  let authenticity : ℚ :=
    qmax (3/10) (1 - hesitation * (4/10) + confidence * (3/10) -
      (if energy > 3/10 then 1/10 else 0))
  (detectedEmotion,
   { confidence := round2 confidence
     energy := round2 energy
     verbosity := round2 verbosity
     hesitation := round2 hesitation
     authenticity := round2 (qmax 0 (qmin 1 authenticity)) })

/-- Emotion keyword map of `analyzeResponse` in EnhancedPsychQuestionnaire.tsx. -/
def enhEmotionKeywords : List (String × List String) :=
  [("joy", ["happy", "excited", "love", "amazing", "wonderful", "great",
            "fantastic", "joy", "delighted", "thrilled", "passionate"]),
   ("sadness", ["sad", "disappointed", "hurt", "lonely", "depressed", "down",
                "melancholy", "grief", "loss", "empty"]),
   ("anger", ["angry", "frustrated", "annoyed", "mad", "furious", "irritated",
              "rage", "upset", "resentful", "bitter"]),
   ("fear", ["scared", "worried", "anxious", "nervous", "afraid", "concerned",
             "terrified", "panic", "overwhelmed"]),
   ("surprise", ["surprised", "shocked", "unexpected", "amazed", "wow",
                 "astonished", "stunned", "bewildered"]),
   ("contemplative", ["think", "reflect", "consider", "ponder", "wonder",
                      "contemplate", "introspect", "analyze", "understand"]),
   ("confident", ["confident", "sure", "certain", "believe", "know", "trust",
                  "strong", "capable", "determined"]),
   ("vulnerable", ["vulnerable", "uncertain", "confused", "lost", "struggling",
                   "questioning", "doubt", "insecure"]),
   ("neutral", ["okay", "fine", "normal", "usual", "regular", "alright",
                "standard", "typical"])]

def enhEnergyKeywords : List String :=
  ["very", "really", "extremely", "absolutely", "totally", "completely",
   "definitely", "incredibly", "deeply"]

def enhHesitationKeywords : List String :=
  ["maybe", "perhaps", "think", "probably", "might", "sort", "kind",
   "somewhat", "possibly", "guess", "suppose"]

/-- `analyzeResponse` of EnhancedPsychQuestionnaire.tsx. -/
def enhAnalyzeResponse (text : List Char) : String × Tone :=
  let words := wordsOf text
  let wordCount := words.length
  let detectedEmotion := detectEmotionFrom enhEmotionKeywords words
  let confidence : ℚ := qmin 1 ((wordCount : ℚ) / 15)
  let energy : ℚ :=
    (countWordsMatching words enhEnergyKeywords : ℚ) /
      ((max wordCount 1 : ℕ) : ℚ)
  let verbosity : ℚ := qmin 1 ((wordCount : ℚ) / 30)
  let hesitation : ℚ :=
    (countWordsMatching words enhHesitationKeywords : ℚ) /
      ((max wordCount 1 : ℕ) : ℚ)
  let personalPronouns : ℚ :=
    ((words.filter (fun w =>
      (["i", "me", "my", "myself"] : List String).any
        (fun p => p.toList == w))).length : ℚ)
  let specificDetails : ℚ := ((words.filter (fun w => w.length > 6)).length : ℚ)
  let emotionalWords : ℚ :=
    ((((enhEmotionKeywords.map Prod.snd).foldr (· ++ ·) []).filter
      (fun k => words.any (fun w => hasSub w k.toList))).length : ℚ)
  let authenticity : ℚ :=
    qmax (3/10)
      (personalPronouns / (max wordCount 1 : ℚ) * (3/10) +
       specificDetails / (max wordCount 1 : ℚ) * (3/10) +
       emotionalWords / (max wordCount 1 : ℚ) * (2/10) +
       (1 - hesitation) * (2/10))
  (detectedEmotion,
   { confidence := round2 confidence
     energy := round2 energy
     verbosity := round2 verbosity
     hesitation := round2 hesitation
     authenticity := round2 (qmax 0 (qmin 1 authenticity)) })

/-- Emotion keyword map of `analyzeUserResponse` in conversationalAI.ts. -/
def convEmotionKeywords : List (String × List String) :=
  [("joy", ["happy", "excited", "love", "amazing", "wonderful", "great",
            "fantastic"]),
   ("sadness", ["sad", "disappointed", "hurt", "lonely", "depressed", "down"]),
   ("anger", ["angry", "frustrated", "annoyed", "mad", "furious", "irritated"]),
   ("fear", ["scared", "worried", "anxious", "nervous", "afraid", "concerned"]),
   ("surprise", ["surprised", "shocked", "unexpected", "amazed", "wow"]),
   ("neutral", ["okay", "fine", "normal", "usual", "regular", "alright"])]

def convEnergyKeywords : List String :=
  ["very", "really", "extremely", "absolutely", "!", "totally"]

def convHesitationKeywords : List String :=
  ["maybe", "perhaps", "i think", "probably", "might", "sort of"]

/-- `analyzeUserResponse` of conversationalAI.ts.  Its tokenizer keeps empty
pieces, so `wordCount ≥ 1` and the plain divisions never divide by zero. -/
def analyzeUserResponse (message : List Char) : String × Tone :=
  let words := wordsRaw message
  let wordCount := words.length
  let detectedEmotion := detectEmotionFrom convEmotionKeywords words
  let confidence : ℚ := qmin 1 ((wordCount : ℚ) / 15)
  let energy : ℚ :=
    (countWordsMatching words convEnergyKeywords : ℚ) / (wordCount : ℚ)
  let verbosity : ℚ := qmin 1 ((wordCount : ℚ) / 30)
  let hesitation : ℚ :=
    (countWordsMatching words convHesitationKeywords : ℚ) / (wordCount : ℚ)
  let authenticity : ℚ := 1 - hesitation * (3/10) + confidence * (2/10)
  (detectedEmotion,
   { confidence := round2 confidence
     energy := round2 energy
     verbosity := round2 verbosity
     hesitation := round2 hesitation
     authenticity := round2 (qmax 0 (qmin 1 authenticity)) })

/-- JS numbers as produced by the aggregator's divisions: the only reachable
division by zero is `0/0` (empty answer list), which is `NaN`; all JS
comparisons against `NaN` are false. -/
inductive JQ where
  | nan : JQ
  | q : ℚ → JQ
deriving DecidableEq, Repr

/-- JS `x > t` (false when `x` is `NaN`). -/
def JQ.gtQ : JQ → ℚ → Bool
  | JQ.nan, _ => false
  | JQ.q x, t => decide (t < x)

/-- JS `x < t` (false when `x` is `NaN`). -/
def JQ.ltQ : JQ → ℚ → Bool
  | JQ.nan, _ => false
  | JQ.q x, t => decide (x < t)

/-- JS division `a / n` by a list length: `0/0 = NaN` when the list is empty
(the numerator is then the empty sum `0`), exact rational division otherwise. -/
def jdiv (a : ℚ) (n : Nat) : JQ :=
  if n = 0 then JQ.nan else JQ.q (a / (n : ℚ))

/-- JS `Math.round` lifted to `JQ` (`Math.round(NaN) = NaN`). -/
def JQ.roundJ : JQ → JQ
  | JQ.nan => JQ.nan
  | JQ.q x => JQ.q ((roundQ x : ℤ) : ℚ)

/-- The Answer record accumulated by PsychologicalQuestionnaire.tsx. -/
structure Answer where
  questionId : Nat
  question : String
  answer : String
  responseTime : ℚ
  wordCount : Nat
  emotionDetected : String
  toneAnalysis : Tone
deriving DecidableEq, Repr

/-- `acc[emotion] = (acc[emotion] || 0) + 1` on an insertion-ordered assoc
list: bump an existing key in place, or append a new key at the end. -/
def bump : List (String × Nat) → String → List (String × Nat)
  | [], e => [(e, 1)]
  | (k, n) :: rest, e =>
    if k = e then (k, n + 1) :: rest else (k, n) :: bump rest e

/-- `emotions.reduce((acc, emotion) => {...}, {})`: the emotion histogram,
keys in first-encounter order. -/
def tally (es : List String) : List (String × Nat) :=
  es.foldl bump []

/-- Stable insert for descending-by-count order: a new element goes before
the first entry whose count it reaches, hence after all strictly greater
ones and before equals that came later in the original list. -/
def insDesc (x : String × Nat) : List (String × Nat) → List (String × Nat)
  | [] => [x]
  | y :: ys => if x.2 ≥ y.2 then x :: y :: ys else y :: insDesc x ys

/-- `entries.sort(([,a],[,b]) => b - a)`: stable (ES2019) descending sort. -/
def sortDesc : List (String × Nat) → List (String × Nat)
  | [] => []
  | p :: ps => insDesc p (sortDesc ps)

/-- `Object.entries(emotionCounts).sort(([,a],[,b]) => b - a)[0]?.[0] || 'neutral'`. -/
def dominantEmotionOf (es : List String) : String :=
  match sortDesc (tally es) with
  | [] => "neutral"
  | p :: _ => p.1

/-- Rule 1 of the archetype decision list:
`avgVerbosity > 0.6 && avgAuthenticity > 0.7`. -/
def storytellerRule (avgVerbosity avgAuthenticity : JQ) : Bool :=
  avgVerbosity.gtQ (6/10) && avgAuthenticity.gtQ (7/10)

/-- Rule 2: `avgConfidence > 0.7 && avgHesitation < 0.3`. -/
def visionaryRule (avgConfidence avgHesitation : JQ) : Bool :=
  avgConfidence.gtQ (7/10) && avgHesitation.ltQ (3/10)

/-- Rule 3: `avgHesitation > 0.4 && avgAuthenticity > 0.6`. -/
def analystRule (avgHesitation avgAuthenticity : JQ) : Bool :=
  avgHesitation.gtQ (4/10) && avgAuthenticity.gtQ (6/10)

/-- Rule 4: `dominantEmotion === 'contemplative' || dominantEmotion === 'neutral'`. -/
def observerRule (dominantEmotion : String) : Bool :=
  dominantEmotion == "contemplative" || dominantEmotion == "neutral"

/-- Archetype / motivational type / communication mode: the ordered decision
list of generatePsychologicalProfile (an if/else-if chain, top to bottom,
first matching rule wins, with a default for the no-match case). -/
def selectArchetype (avgVerbosity avgAuthenticity avgConfidence avgHesitation : JQ)
    (dominantEmotion : String) : String × String × String :=
  if storytellerRule avgVerbosity avgAuthenticity then
    ("The Reflective Storyteller", "narrative-driven introspector",
     "expressive and detailed")
  else if visionaryRule avgConfidence avgHesitation then
    ("The Decisive Visionary", "action-oriented leader", "direct and confident")
  else if analystRule avgHesitation avgAuthenticity then
    ("The Thoughtful Analyst", "careful contemplator", "measured and considerate")
  else if observerRule dominantEmotion then
    ("The Philosophical Observer", "wisdom-seeking observer",
     "analytical and reserved")
  else
    ("The Balanced Explorer", "balanced seeker", "thoughtful")

/-- Core-trait inclusion tests of generatePsychologicalProfile, in push order. -/
def coreTraitsOf (avgAuthenticity avgVerbosity avgConfidence avgHesitation : JQ)
    (dominantEmotion : String) (totalWords : Nat) : List String :=
  (if avgAuthenticity.gtQ (7/10) then ["authentic"] else []) ++
  (if avgVerbosity.gtQ (5/10) then ["expressive"] else []) ++
  (if avgConfidence.gtQ (6/10) then ["self-assured"] else []) ++
  (if avgHesitation.gtQ (4/10) then ["thoughtful"] else []) ++
  (if dominantEmotion == "contemplative" then ["introspective"] else []) ++
  (if totalWords > 200 then ["articulate"] else [])

/-- Shadow-trait inclusion tests of generatePsychologicalProfile, in push order. -/
def shadowTraitsOf (avgHesitation avgConfidence avgVerbosity avgResponseTime : JQ) :
    List String :=
  (if avgHesitation.gtQ (5/10) then ["tendency to overthink"] else []) ++
  (if avgConfidence.ltQ (4/10) then ["self-doubt patterns"] else []) ++
  (if avgVerbosity.ltQ (3/10) then ["communication guardedness"] else []) ++
  (if avgResponseTime.gtQ 60 then ["perfectionist tendencies"] else [])

/-- Mean of one tone dimension over the answers
(`answers.reduce((sum, a) => sum + f(a.toneAnalysis), 0) / answers.length`). -/
def avgTone (f : Tone → ℚ) (answers : List Answer) : JQ :=
  jdiv ((answers.map (fun a => f a.toneAnalysis)).sum) answers.length

/-- The `response_patterns` sub-record of the profile. -/
structure ResponsePatterns where
  avg_word_count : JQ
  avg_response_time : JQ
  emotional_range : Nat
  dominant_emotion : String
deriving DecidableEq, Repr

/-- The `psych_profile` sub-record of the aggregator's result. -/
structure PsychProfile where
  archetype : String
  core_traits : List String
  motivational_type : String
  shadow_traits : List String
  emotion_profile : String
  honesty_index : JQ
  communication_mode : String
  tone_signature : String
  response_patterns : ResponsePatterns
deriving DecidableEq, Repr

/-- The full record returned by generatePsychologicalProfile. -/
structure ExtractedData where
  name : String
  psych_profile : PsychProfile
  answers : List Answer
  data_consent : Bool
  session_completed_at : String
deriving DecidableEq, Repr

/-- `generatePsychologicalProfile` of PsychologicalQuestionnaire.tsx.
`userName` is the closure-captured component prop and `nowISO` the value the
JS code reads from the clock (`new Date().toISOString()`) while building the
returned record. -/
def generatePsychologicalProfile (userName : String) (answers : List Answer)
    (dataConsent : Bool) (nowISO : String) : ExtractedData :=
  let totalWords := (answers.map Answer.wordCount).sum
  let avgResponseTime := jdiv ((answers.map Answer.responseTime).sum) answers.length
  let avgAuthenticity := avgTone Tone.authenticity answers
  let avgConfidence := avgTone Tone.confidence answers
  let avgVerbosity := avgTone Tone.verbosity answers
  let avgHesitation := avgTone Tone.hesitation answers
  let emotions := answers.map Answer.emotionDetected
  let emotionCounts := tally emotions
  let dominantEmotion := dominantEmotionOf emotions
  let amc := selectArchetype avgVerbosity avgAuthenticity avgConfidence
    avgHesitation dominantEmotion
  let coreTraits := coreTraitsOf avgAuthenticity avgVerbosity avgConfidence
    avgHesitation dominantEmotion totalWords
  let shadowTraits := shadowTraitsOf avgHesitation avgConfidence avgVerbosity
    avgResponseTime
  { name := userName
    psych_profile :=
      { archetype := amc.1
        core_traits := coreTraits
        motivational_type := amc.2.1
        shadow_traits := shadowTraits
        emotion_profile := dominantEmotion ++ " dominant with " ++
          (if avgAuthenticity.gtQ (7/10) then "high" else "moderate") ++
          " authenticity"
        honesty_index := avgAuthenticity
        communication_mode := amc.2.2
        tone_signature :=
          (if avgVerbosity.gtQ (5/10) then "verbose" else "concise") ++ ", " ++
          (if avgConfidence.gtQ (6/10) then "confident" else "measured")
        response_patterns :=
          { avg_word_count := (jdiv (totalWords : ℚ) answers.length).roundJ
            avg_response_time := avgResponseTime.roundJ
            emotional_range := emotionCounts.length
            dominant_emotion := dominantEmotion } }
    answers := answers
    data_consent := dataConsent
    session_completed_at := nowISO }

/-- Question record of the PsychologySession service. -/
structure PsychQuestion where
  id : Nat
  question : String
  category : String
  psychologicalTarget : String
  difficultyLevel : Nat
deriving DecidableEq, Repr

/-- Answer record of the PsychologySession service. -/
structure PsychAnswer where
  questionId : Nat
  question : String
  answer : String
  responseMethod : String
  emotionDetected : String
  toneAnalysis : Tone
deriving DecidableEq, Repr

/-- Mutable state of the PsychologySession class. -/
structure PsychologySession where
  sessionId : String
  userId : String
  questions : List PsychQuestion
  responses : List PsychAnswer
  currentQuestionIndex : Nat
deriving DecidableEq, Repr

/-- `isComplete(): return this.responses.length >= Math.min(8, this.questions.length)`. -/
def PsychologySession.isComplete (s : PsychologySession) : Bool :=
  decide (min 8 s.questions.length ≤ s.responses.length)

/-- The closed set of emotion labels fixed by the specification's glossary. -/
def emotionLabels : List String :=
  ["joy", "sadness", "anger", "fear", "surprise", "contemplative", "confident",
   "vulnerable", "neutral"]

/-- All five tone components lie in the unit interval. -/
def toneInUnit (t : Tone) : Prop :=
  0 ≤ t.confidence ∧ t.confidence ≤ 1 ∧
  0 ≤ t.energy ∧ t.energy ≤ 1 ∧
  0 ≤ t.verbosity ∧ t.verbosity ≤ 1 ∧
  0 ≤ t.hesitation ∧ t.hesitation ≤ 1 ∧
  0 ≤ t.authenticity ∧ t.authenticity ≤ 1

/-- Assoc-list lookup with default `0`: the count recorded for key `e`. -/
def lookupCnt : List (String × Nat) → String → Nat
  | [], _ => 0
  | p :: ps, e => if p.1 = e then p.2 else lookupCnt ps e

/-- Count carried by the head entry of an assoc list (`0` when empty). -/
def headCnt : List (String × Nat) → Nat
  | [] => 0
  | p :: _ => p.2

/-- A concrete answer used to instantiate universally quantified theorems. -/
def answerWith (e : String) (t : Tone) (rt : ℚ) (wc : Nat) : Answer :=
  { questionId := 1, question := "q", answer := "a", responseTime := rt,
    wordCount := wc, emotionDetected := e, toneAnalysis := t }

/-- A concrete mid-range tone vector. -/
def halfTone : Tone := ⟨1/2, 1/2, 1/2, 1/2, 1/2⟩

/-- A concrete high-hesitation tone vector. -/
def hesitantTone : Tone := ⟨1/2, 1/2, 1/2, 6/10, 1/2⟩

/-- A concrete session state with five questions, all answered. -/
def smallSession : PsychologySession :=
  { sessionId := "s", userId := "u",
    questions := (List.range 5).map
      (fun i => { id := i, question := "q", category := "c",
                  psychologicalTarget := "t", difficultyLevel := 1 }),
    responses := (List.range 5).map
      (fun i => { questionId := i, question := "q", answer := "a",
                  responseMethod := "text", emotionDetected := "neutral",
                  toneAnalysis := halfTone }),
    currentQuestionIndex := 5 }


/-! ### Basic facts about the numeric embedding -/

theorem qmin_eq_min (a b : ℚ) : qmin a b = min a b := (min_def a b).symm

theorem qmax_eq_max (a b : ℚ) : qmax a b = max a b := (max_def a b).symm

theorem roundQ_eq_round (x : ℚ) : roundQ x = round x := by
  rw [round_eq]
  show (x + 1/2).floor = ⌊x + 1/2⌋
  rw [Rat.floor_def', Rat.floor_def]

theorem round2_mono {x y : ℚ} (h : x ≤ y) : round2 x ≤ round2 y := by
  unfold round2
  have h1 : roundQ (x * 100) ≤ roundQ (y * 100) := by
    rw [roundQ_eq_round, roundQ_eq_round, round_eq, round_eq]
    exact Int.floor_le_floor (by linarith)
  have h2 : ((roundQ (x * 100) : ℤ) : ℚ) ≤ ((roundQ (y * 100) : ℤ) : ℚ) := by
    exact_mod_cast h1
  linarith

theorem round2_zero : round2 0 = 0 := by
  unfold round2
  rw [roundQ_eq_round]
  norm_num

theorem round2_one : round2 1 = 1 := by
  unfold round2
  rw [roundQ_eq_round]
  norm_num

theorem round2_nonneg {x : ℚ} (h : 0 ≤ x) : 0 ≤ round2 x := by
  have := round2_mono h
  rwa [round2_zero] at this

theorem round2_le_one {x : ℚ} (h : x ≤ 1) : round2 x ≤ 1 := by
  have := round2_mono h
  rwa [round2_one] at this

theorem round2_ge_threeTenths {x : ℚ} (h : 3/10 ≤ x) : 3/10 ≤ round2 x := by
  have := round2_mono h
  have h3 : round2 (3/10) = 3/10 := by
    unfold round2
    rw [roundQ_eq_round]
    rw [show (3/10 * 100 : ℚ) = ((30 : ℕ) : ℚ) by norm_num, round_natCast]
    norm_num
  rwa [h3] at this


/-- The clamp `Math.max(0, Math.min(1, a))` always lands in `[0, 1]`. -/
theorem clamp01 (a : ℚ) : 0 ≤ qmax 0 (qmin 1 a) ∧ qmax 0 (qmin 1 a) ≤ 1 := by
  rw [qmax_eq_max, qmin_eq_min]
  exact ⟨le_max_left 0 _, max_le zero_le_one (min_le_left 1 a)⟩

/-- `Math.min(1, n / d)` lands in `[0, 1]` for a count `n` and positive `d`. -/
theorem qmin_unit (n : ℕ) (d : ℚ) (hd : 0 < d) :
    0 ≤ qmin 1 ((n : ℚ) / d) ∧ qmin 1 ((n : ℚ) / d) ≤ 1 := by
  rw [qmin_eq_min]
  exact ⟨le_min zero_le_one (div_nonneg (Nat.cast_nonneg n) (le_of_lt hd)),
    min_le_left 1 _⟩

/-- A ratio of a part to a whole lands in `[0, 1]`. -/
theorem frac_unit {c m : ℕ} (hc : c ≤ m) (hm : 0 < m) :
    0 ≤ (c : ℚ) / (m : ℚ) ∧ (c : ℚ) / (m : ℚ) ≤ 1 := by
  have hm' : (0 : ℚ) < m := by exact_mod_cast hm
  constructor
  · exact div_nonneg (Nat.cast_nonneg c) (le_of_lt hm')
  · rw [div_le_one hm']
    exact_mod_cast hc

/-! ### The emotion-selection fold -/

/-- The loop body yields either the new entry or the old accumulator. -/
theorem pickStep_cases (acc p : String × Nat) :
    pickStep acc p = p ∨ pickStep acc p = acc := by
  unfold pickStep
  split
  · exact Or.inl rfl
  · exact Or.inr rfl

/-- The loop body keeps an accumulator that is not strictly beaten. -/
theorem pickStep_keep {acc p : String × Nat} (h : p.2 ≤ acc.2) :
    pickStep acc p = acc := by
  unfold pickStep
  exact if_neg (by omega)

/-- The loop body takes a strictly greater entry. -/
theorem pickStep_take {acc p : String × Nat} (h : acc.2 < p.2) :
    pickStep acc p = p := by
  unfold pickStep
  exact if_pos h

/-- The loop body never lowers the accumulator's count. -/
theorem pickStep_ge (acc p : String × Nat) : acc.2 ≤ (pickStep acc p).2 := by
  unfold pickStep
  split
  · omega
  · exact le_refl _

/-- If no entry beats the accumulator, the fold returns the accumulator. -/
theorem foldl_pickStep_const {l : List (String × Nat)} {acc : String × Nat}
    (h : ∀ p ∈ l, p.2 ≤ acc.2) : l.foldl pickStep acc = acc := by
  induction l with
  | nil => rfl
  | cons p ps ih =>
    rw [List.foldl_cons, pickStep_keep (h p (List.mem_cons_self p ps))]
    exact ih fun q hq => h q (List.mem_cons_of_mem p hq)

/-- The fold either keeps the accumulator or returns a list entry. -/
theorem foldl_pickStep_mem (l : List (String × Nat)) (acc : String × Nat) :
    l.foldl pickStep acc = acc ∨ l.foldl pickStep acc ∈ l := by
  induction l generalizing acc with
  | nil => exact Or.inl rfl
  | cons p ps ih =>
    rw [List.foldl_cons]
    rcases ih (pickStep acc p) with h | h
    · rcases pickStep_cases acc p with hp | hp
      · rw [h, hp]
        exact Or.inr (List.mem_cons_self p ps)
      · rw [h, hp]
        exact Or.inl rfl
    · exact Or.inr (List.mem_cons_of_mem p h)

/-- The fold never ends below the accumulator's count. -/
theorem foldl_pickStep_ge (l : List (String × Nat)) (acc : String × Nat) :
    acc.2 ≤ (l.foldl pickStep acc).2 := by
  induction l generalizing acc with
  | nil => exact le_refl _
  | cons p ps ih =>
    rw [List.foldl_cons]
    exact le_trans (pickStep_ge acc p) (ih (pickStep acc p))

/-- The first entry that strictly beats everything before it and is not beaten
afterwards is the fold's result. -/
theorem foldl_pickStep_firstMax {l1 l2 : List (String × Nat)}
    {p acc : String × Nat} (hacc : acc.2 < p.2) (h1 : ∀ q ∈ l1, q.2 < p.2)
    (h2 : ∀ q ∈ l2, q.2 ≤ p.2) :
    (l1 ++ p :: l2).foldl pickStep acc = p := by
  induction l1 generalizing acc with
  | nil =>
    rw [List.nil_append, List.foldl_cons, pickStep_take hacc]
    exact foldl_pickStep_const h2
  | cons q l1 ih =>
    rw [List.cons_append, List.foldl_cons]
    have hq : (pickStep acc q).2 < p.2 := by
      rcases pickStep_cases acc q with h | h <;> rw [h]
      · exact h1 q (List.mem_cons_self q l1)
      · exact hacc
    exact ih hq fun r hr => h1 r (List.mem_cons_of_mem q hr)

/-- The keys of the per-emotion count table are the keyword map's keys. -/
theorem emotionTable_keys (km : List (String × List String))
    (words : List (List Char)) :
    (emotionTable km words).map Prod.fst = km.map Prod.fst := by
  unfold emotionTable
  rw [List.map_map]
  rfl

/-- The detected emotion is `'neutral'` or a key of the keyword map. -/
theorem detect_mem (km : List (String × List String)) (words : List (List Char)) :
    detectEmotionFrom km words = "neutral" ∨
      detectEmotionFrom km words ∈ km.map Prod.fst := by
  unfold detectEmotionFrom pickTop
  rcases foldl_pickStep_mem (emotionTable km words) ("neutral", 0) with h | h
  · exact Or.inl (by rw [h])
  · right
    rw [← emotionTable_keys km words]
    exact List.mem_map_of_mem Prod.fst h

/-! ### Tokenizer facts -/

/-- `split` always returns at least one piece. -/
theorem splitChars_ne_nil (sep : Char → Bool) (cs : List Char) :
    splitChars sep cs ≠ [] := by
  induction cs with
  | nil => simp [splitChars]
  | cons c cs ih =>
    simp only [splitChars]
    rcases h : splitChars sep cs with _ | ⟨w, ws⟩
    · exact absurd h ih
    · simp only [h]
      split <;> simp

/-- The conversationalAI tokenizer never returns zero tokens. -/
theorem wordsRaw_length_pos (text : List Char) : 0 < (wordsRaw text).length :=
  List.length_pos.mpr (splitChars_ne_nil _ _)

/-! ### Emotion labels stay in the fixed set -/

theorem psych_detect_mem_labels (words : List (List Char)) :
    detectEmotionFrom psychEmotionKeywords words ∈ emotionLabels := by
  rcases detect_mem psychEmotionKeywords words with h | h
  · rw [h]; decide
  · have sub : ∀ y ∈ psychEmotionKeywords.map Prod.fst, y ∈ emotionLabels := by
      decide
    exact sub _ h

theorem enh_detect_mem_labels (words : List (List Char)) :
    detectEmotionFrom enhEmotionKeywords words ∈ emotionLabels := by
  rcases detect_mem enhEmotionKeywords words with h | h
  · rw [h]; decide
  · have sub : ∀ y ∈ enhEmotionKeywords.map Prod.fst, y ∈ emotionLabels := by
      decide
    exact sub _ h

theorem conv_detect_mem_labels (words : List (List Char)) :
    detectEmotionFrom convEmotionKeywords words ∈ emotionLabels := by
  rcases detect_mem convEmotionKeywords words with h | h
  · rw [h]; decide
  · have sub : ∀ y ∈ convEmotionKeywords.map Prod.fst, y ∈ emotionLabels := by
      decide
    exact sub _ h

/-! ### Tone-field bounds -/

/-- A filtered sublist is no longer than the token list. -/
theorem countWordsMatching_le (words : List (List Char)) (kws : List String) :
    countWordsMatching words kws ≤ words.length :=
  List.length_filter_le _ _

theorem round2_unit {x : ℚ} (h0 : 0 ≤ x) (h1 : x ≤ 1) :
    0 ≤ round2 x ∧ round2 x ≤ 1 :=
  ⟨round2_nonneg h0, round2_le_one h1⟩

/-- Bounds for the `count / Math.max(wordCount, 1)` ratios. -/
theorem ratio_maxed_unit (words : List (List Char)) (kws : List String) :
    0 ≤ (countWordsMatching words kws : ℚ) / ((max words.length 1 : ℕ) : ℚ) ∧
      (countWordsMatching words kws : ℚ) / ((max words.length 1 : ℕ) : ℚ) ≤ 1 :=
  frac_unit
    (le_trans (countWordsMatching_le words kws) (Nat.le_max_left _ 1))
    (Nat.lt_of_lt_of_le Nat.one_pos (Nat.le_max_right _ 1))

/-- Bounds for the conversationalAI `count / wordCount` ratios. -/
theorem ratio_raw_unit (text : List Char) (kws : List String) :
    0 ≤ (countWordsMatching (wordsRaw text) kws : ℚ) /
        ((wordsRaw text).length : ℚ) ∧
      (countWordsMatching (wordsRaw text) kws : ℚ) /
        ((wordsRaw text).length : ℚ) ≤ 1 :=
  frac_unit (countWordsMatching_le _ _) (wordsRaw_length_pos text)

/-- The rounded clamp lands in the unit interval, whatever its argument. -/
theorem round2_clamp_unit (a : ℚ) :
    0 ≤ round2 (qmax 0 (qmin 1 a)) ∧ round2 (qmax 0 (qmin 1 a)) ≤ 1 :=
  ⟨round2_nonneg (clamp01 a).1, round2_le_one (clamp01 a).2⟩

/-- C5: for every input string — including the empty string and strings with
no alphabetic content — the psychological-flow analyzer `analyzeResponse` and
the conversational-flow analyzer `analyzeUserResponse` return a well-formed
result: the emotion is a member of the fixed label set and all five tone
components (confidence, energy, verbosity, hesitation, authenticity) lie in
[0,1].  Both are total functions of the input text, so they never throw. -/
theorem C5_analyzer_totality (text : List Char) :
    ((psychAnalyzeResponse text).1 ∈ emotionLabels ∧
      toneInUnit (psychAnalyzeResponse text).2) ∧
    ((analyzeUserResponse text).1 ∈ emotionLabels ∧
      toneInUnit (analyzeUserResponse text).2) := by
  refine ⟨⟨psych_detect_mem_labels _, ?_⟩, ⟨conv_detect_mem_labels _, ?_⟩⟩
  · exact ⟨round2_nonneg (qmin_unit _ 15 (by norm_num)).1,
      round2_le_one (qmin_unit _ 15 (by norm_num)).2,
      round2_nonneg (ratio_maxed_unit _ _).1,
      round2_le_one (ratio_maxed_unit _ _).2,
      round2_nonneg (qmin_unit _ 30 (by norm_num)).1,
      round2_le_one (qmin_unit _ 30 (by norm_num)).2,
      round2_nonneg (ratio_maxed_unit _ _).1,
      round2_le_one (ratio_maxed_unit _ _).2,
      (round2_clamp_unit _).1, (round2_clamp_unit _).2⟩
  · exact ⟨round2_nonneg (qmin_unit _ 15 (by norm_num)).1,
      round2_le_one (qmin_unit _ 15 (by norm_num)).2,
      round2_nonneg (ratio_raw_unit _ _).1,
      round2_le_one (ratio_raw_unit _ _).2,
      round2_nonneg (qmin_unit _ 30 (by norm_num)).1,
      round2_le_one (qmin_unit _ 30 (by norm_num)).2,
      round2_nonneg (ratio_raw_unit _ _).1,
      round2_le_one (ratio_raw_unit _ _).2,
      (round2_clamp_unit _).1, (round2_clamp_unit _).2⟩

/-! ### Monotonicity of confidence and verbosity (C6) -/

/-- `Math.min(1, n/d)` is monotone in the count `n`. -/
theorem qmin_div_mono {n1 n2 : ℕ} (h : n1 ≤ n2) (d : ℚ) (hd : 0 < d) :
    qmin 1 ((n1 : ℚ) / d) ≤ qmin 1 ((n2 : ℚ) / d) := by
  rw [qmin_eq_min, qmin_eq_min]
  refine min_le_min (le_refl 1) ?_
  rw [div_le_div_iff_of_pos_right hd]
  exact_mod_cast h

/-- C6: for any two input strings, if the first tokenizes to strictly fewer
words than the second (and the second stays within the 15-word saturation
bound for confidence, resp. the 30-word bound for verbosity), then the
analyzer's confidence (resp. verbosity) is monotone, in both the
psychological and the enhanced questionnaire analyzers, since
`confidence = min(1, wordCount/15)` and `verbosity = min(1, wordCount/30)`. -/
theorem C6_confidence_verbosity_monotone (s1 s2 : List Char)
    (hlt : (wordsOf s1).length < (wordsOf s2).length) :
    ((wordsOf s2).length ≤ 15 →
      (psychAnalyzeResponse s1).2.confidence ≤
        (psychAnalyzeResponse s2).2.confidence ∧
      (enhAnalyzeResponse s1).2.confidence ≤
        (enhAnalyzeResponse s2).2.confidence) ∧
    ((wordsOf s2).length ≤ 30 →
      (psychAnalyzeResponse s1).2.verbosity ≤
        (psychAnalyzeResponse s2).2.verbosity ∧
      (enhAnalyzeResponse s1).2.verbosity ≤
        (enhAnalyzeResponse s2).2.verbosity) := by
  have hc := qmin_div_mono (le_of_lt hlt) 15 (by norm_num)
  have hv := qmin_div_mono (le_of_lt hlt) 30 (by norm_num)
  exact ⟨fun _ => ⟨round2_mono hc, round2_mono hc⟩,
         fun _ => ⟨round2_mono hv, round2_mono hv⟩⟩

/-! ### The authenticity floor (C8) -/

/-- The clamp keeps any value that is at least `0.3` at least `0.3`. -/
theorem clamp_ge_threeTenths {a : ℚ} (h : 3/10 ≤ a) :
    3/10 ≤ qmax 0 (qmin 1 a) := by
  rw [qmax_eq_max, qmin_eq_min]
  exact le_trans (le_min (by norm_num) h) (le_max_right 0 _)

/-- The psychological analyzer's authenticity never drops below `0.3`. -/
theorem psych_auth_ge (text : List Char) :
    3/10 ≤ (psychAnalyzeResponse text).2.authenticity := by
  refine round2_ge_threeTenths (clamp_ge_threeTenths ?_)
  rw [qmax_eq_max]
  exact le_max_left _ _

/-- The enhanced analyzer's authenticity never drops below `0.3`. -/
theorem enh_auth_ge (text : List Char) :
    3/10 ≤ (enhAnalyzeResponse text).2.authenticity := by
  refine round2_ge_threeTenths (clamp_ge_threeTenths ?_)
  rw [qmax_eq_max]
  exact le_max_left _ _

/-! ### Characterization of emotion detection (C3) -/

/-- With no keyword match at all, detection returns `'neutral'`. -/
theorem detect_zero_neutral (km : List (String × List String))
    (words : List (List Char))
    (h : ∀ p ∈ emotionTable km words, p.2 = 0) :
    detectEmotionFrom km words = "neutral" := by
  unfold detectEmotionFrom pickTop
  rw [foldl_pickStep_const fun p hp => le_of_eq (h p hp)]

/-- The first emotion attaining the maximal (positive) match count is the
detected one: entries before it count strictly less, entries after it count
no more.  In particular ties at the maximum go to the earlier entry. -/
theorem detect_firstMax (km : List (String × List String))
    (words : List (List Char)) (l1 l2 : List (String × Nat)) (p : String × Nat)
    (he : emotionTable km words = l1 ++ p :: l2) (hp : 0 < p.2)
    (h1 : ∀ q ∈ l1, q.2 < p.2) (h2 : ∀ q ∈ l2, q.2 ≤ p.2) :
    detectEmotionFrom km words = p.1 := by
  unfold detectEmotionFrom pickTop
  rw [he, foldl_pickStep_firstMax hp h1 h2]

/-! ### The emotion histogram (C4) -/

/-- Bumping a key increments exactly that key's recorded count. -/
theorem lookupCnt_bump_same (l : List (String × Nat)) (e : String) :
    lookupCnt (bump l e) e = lookupCnt l e + 1 := by
  induction l with
  | nil => simp [bump, lookupCnt]
  | cons p rest ih =>
    obtain ⟨k, n⟩ := p
    by_cases h : k = e
    · subst h
      simp [bump, lookupCnt]
    · simp [bump, lookupCnt, h, ih]

/-- Bumping one key leaves every other key's count unchanged. -/
theorem lookupCnt_bump_ne (l : List (String × Nat)) {e f : String} (hef : e ≠ f) :
    lookupCnt (bump l e) f = lookupCnt l f := by
  induction l with
  | nil => simp [bump, lookupCnt, hef]
  | cons p rest ih =>
    obtain ⟨k, n⟩ := p
    by_cases h : k = e
    · subst h
      simp [bump, lookupCnt, hef]
    · by_cases hf : k = f
      · subst hf
        simp [bump, lookupCnt, h]
      · simp [bump, lookupCnt, h, hf, ih]

/-- The histogram fold records exactly the occurrence counts. -/
theorem tally_count_aux (es : List String) :
    ∀ (acc : List (String × Nat)) (e : String),
      lookupCnt (es.foldl bump acc) e = lookupCnt acc e + es.count e := by
  induction es with
  | nil =>
    intro acc e
    simp
  | cons x es ih =>
    intro acc e
    rw [List.foldl_cons, ih]
    by_cases h : x = e
    · subst h
      rw [lookupCnt_bump_same]
      simp [List.count_cons]
      omega
    · have h2 : e ≠ x := fun heq => h heq.symm
      rw [lookupCnt_bump_ne _ h]
      simp [List.count_cons, h2]

/-- The histogram's recorded count for `e` is the number of occurrences. -/
theorem tally_count (es : List String) (e : String) :
    lookupCnt (tally es) e = es.count e := by
  unfold tally
  rw [tally_count_aux]
  simp [lookupCnt]

/-- A key of the bumped histogram was a key before, or is the bumped key. -/
theorem mem_keys_bump {l : List (String × Nat)} {e x : String}
    (h : x ∈ (bump l e).map Prod.fst) : x ∈ l.map Prod.fst ∨ x = e := by
  induction l with
  | nil =>
    simp [bump] at h
    exact Or.inr h
  | cons p rest ih =>
    obtain ⟨k, n⟩ := p
    by_cases hk : k = e
    · subst hk
      rw [show bump ((k, n) :: rest) k = (k, n + 1) :: rest by simp [bump]] at h
      rw [List.map_cons] at h
      rw [List.map_cons]
      exact Or.inl h
    · rw [show bump ((k, n) :: rest) e = (k, n) :: bump rest e by
        simp [bump, hk]] at h
      rw [List.map_cons, List.mem_cons] at h
      rcases h with h | h
      · exact Or.inl (by rw [List.map_cons, List.mem_cons]; exact Or.inl h)
      · rcases ih h with h1 | h1
        · exact Or.inl (by rw [List.map_cons, List.mem_cons]; exact Or.inr h1)
        · exact Or.inr h1

/-- Bumping preserves distinctness of the histogram's keys. -/
theorem nodup_keys_bump {l : List (String × Nat)} (e : String)
    (h : (l.map Prod.fst).Nodup) : ((bump l e).map Prod.fst).Nodup := by
  induction l with
  | nil => simp [bump]
  | cons p rest ih =>
    obtain ⟨k, n⟩ := p
    rw [List.map_cons, List.nodup_cons] at h
    by_cases hk : k = e
    · subst hk
      rw [show bump ((k, n) :: rest) k = (k, n + 1) :: rest by simp [bump]]
      rw [List.map_cons, List.nodup_cons]
      exact h
    · rw [show bump ((k, n) :: rest) e = (k, n) :: bump rest e by
        simp [bump, hk]]
      rw [List.map_cons, List.nodup_cons]
      refine ⟨fun hmem => ?_, ih h.2⟩
      rcases mem_keys_bump hmem with h1 | h1
      · exact h.1 h1
      · exact hk h1

/-- The histogram built by the fold has pairwise distinct keys. -/
theorem tally_nodup_aux (es : List String) :
    ∀ acc : List (String × Nat), (acc.map Prod.fst).Nodup →
      ((es.foldl bump acc).map Prod.fst).Nodup := by
  induction es with
  | nil =>
    intro acc h
    simpa using h
  | cons x es ih =>
    intro acc h
    rw [List.foldl_cons]
    exact ih _ (nodup_keys_bump x h)

theorem tally_nodup (es : List String) : ((tally es).map Prod.fst).Nodup :=
  tally_nodup_aux es [] (by simp)

/-- With distinct keys, lookup of a member's key finds that member's count. -/
theorem lookupCnt_of_mem {l : List (String × Nat)} {p : String × Nat}
    (hmem : p ∈ l) (hnd : (l.map Prod.fst).Nodup) : lookupCnt l p.1 = p.2 := by
  induction l with
  | nil => cases hmem
  | cons q rest ih =>
    rw [List.map_cons, List.nodup_cons] at hnd
    rcases List.mem_cons.mp hmem with rfl | hmem2
    · simp [lookupCnt]
    · have hq : q.1 ≠ p.1 := by
        intro he
        apply hnd.1
        rw [he]
        exact List.mem_map_of_mem Prod.fst hmem2
      simp only [lookupCnt, if_neg hq]
      exact ih hmem2 hnd.2

/-- A key with a positive recorded count appears in the assoc list. -/
theorem mem_of_lookupCnt_pos {l : List (String × Nat)} {e : String}
    (h : lookupCnt l e ≠ 0) : (e, lookupCnt l e) ∈ l := by
  induction l with
  | nil => simp [lookupCnt] at h
  | cons q rest ih =>
    by_cases hq : q.1 = e
    · have he : lookupCnt (q :: rest) e = q.2 := by simp [lookupCnt, hq]
      rw [he]
      have h2 : (e, q.2) = q := by rw [← hq]
      rw [h2]
      exact List.mem_cons_self q rest
    · have he : lookupCnt (q :: rest) e = lookupCnt rest e := by
        simp [lookupCnt, hq]
      rw [he]
      rw [he] at h
      exact List.mem_cons_of_mem q (ih h)

/-! ### The stable descending sort (C4) -/

theorem mem_insDesc {x p : String × Nat} {l : List (String × Nat)} :
    x ∈ insDesc p l ↔ x = p ∨ x ∈ l := by
  induction l with
  | nil => simp [insDesc]
  | cons y ys ih =>
    by_cases h : p.2 ≥ y.2
    · simp [insDesc, h, List.mem_cons]
    · simp [insDesc, h, List.mem_cons, ih]
      tauto

theorem insDesc_ne_nil (p : String × Nat) (l : List (String × Nat)) :
    insDesc p l ≠ [] := by
  cases l with
  | nil => simp [insDesc]
  | cons y ys =>
    simp only [insDesc]
    split <;> simp

theorem sortDesc_eq_nil {l : List (String × Nat)} :
    sortDesc l = [] ↔ l = [] := by
  cases l with
  | nil => simp [sortDesc]
  | cons p ps => simp [sortDesc, insDesc_ne_nil]

theorem mem_sortDesc {x : String × Nat} {l : List (String × Nat)} :
    x ∈ sortDesc l ↔ x ∈ l := by
  induction l with
  | nil => simp [sortDesc]
  | cons p ps ih => simp [sortDesc, mem_insDesc, ih, List.mem_cons]

theorem headCnt_insDesc (p : String × Nat) (l : List (String × Nat)) :
    headCnt (insDesc p l) = max p.2 (headCnt l) := by
  cases l with
  | nil =>
    simp [insDesc, headCnt]
  | cons y ys =>
    by_cases h : p.2 ≥ y.2
    · simp [insDesc, h, headCnt]
    · simp [insDesc, h, headCnt]
      omega

/-- After sorting, the head's count dominates every entry of the input. -/
theorem le_headCnt_sortDesc {l : List (String × Nat)} {x : String × Nat}
    (h : x ∈ l) : x.2 ≤ headCnt (sortDesc l) := by
  induction l with
  | nil => cases h
  | cons p ps ih =>
    show x.2 ≤ headCnt (insDesc p (sortDesc ps))
    rw [headCnt_insDesc]
    rcases List.mem_cons.mp h with rfl | h2
    · exact Nat.le_max_left _ _
    · exact le_trans (ih h2) (Nat.le_max_right _ _)

/-- A non-empty emotion list yields a non-empty histogram. -/
theorem tally_ne_nil {es : List String} (h : es ≠ []) : tally es ≠ [] := by
  cases es with
  | nil => exact absurd rfl h
  | cons e es =>
    intro ht
    have hc := tally_count (e :: es) e
    rw [ht] at hc
    simp [lookupCnt, List.count_cons] at hc

/-- The dominant emotion's occurrence count is maximal among all labels. -/
theorem count_le_dominant (es : List String) (e : String) :
    es.count e ≤ es.count (dominantEmotionOf es) := by
  rcases eq_or_ne es [] with rfl | hne
  · simp
  obtain ⟨h, rest, hsort⟩ : ∃ h rest, sortDesc (tally es) = h :: rest := by
    rcases hs : sortDesc (tally es) with _ | ⟨h, rest⟩
    · exact absurd (sortDesc_eq_nil.mp hs) (tally_ne_nil hne)
    · exact ⟨h, rest, rfl⟩
  have hd : dominantEmotionOf es = h.1 := by
    unfold dominantEmotionOf
    rw [hsort]
  have hmem : h ∈ tally es :=
    mem_sortDesc.mp (by rw [hsort]; exact List.mem_cons_self h rest)
  have hcount_d : es.count h.1 = h.2 := by
    rw [← tally_count es h.1, lookupCnt_of_mem hmem (tally_nodup es)]
  have hhead : headCnt (sortDesc (tally es)) = h.2 := by
    rw [hsort]
    rfl
  rw [hd, hcount_d]
  by_cases hce : es.count e = 0
  · rw [hce]
    exact Nat.zero_le _
  · have hmem2 : (e, lookupCnt (tally es) e) ∈ tally es :=
      mem_of_lookupCnt_pos (by rw [tally_count]; exact hce)
    have hle := le_headCnt_sortDesc hmem2
    rw [hhead] at hle
    simpa [tally_count] using hle

/-! ### Aggregator projections -/

theorem gen_dominant (u : String) (a : List Answer) (c : Bool) (t : String) :
    (generatePsychologicalProfile u a c
        t).psych_profile.response_patterns.dominant_emotion =
      dominantEmotionOf (a.map Answer.emotionDetected) := rfl

theorem gen_archetype (u : String) (a : List Answer) (c : Bool) (t : String) :
    (generatePsychologicalProfile u a c t).psych_profile.archetype =
      (selectArchetype (avgTone Tone.verbosity a) (avgTone Tone.authenticity a)
        (avgTone Tone.confidence a) (avgTone Tone.hesitation a)
        (dominantEmotionOf (a.map Answer.emotionDetected))).1 := rfl

theorem gen_shadow (u : String) (a : List Answer) (c : Bool) (t : String) :
    (generatePsychologicalProfile u a c t).psych_profile.shadow_traits =
      shadowTraitsOf (avgTone Tone.hesitation a) (avgTone Tone.confidence a)
        (avgTone Tone.verbosity a)
        (jdiv ((a.map Answer.responseTime).sum) a.length) := rfl

theorem gen_core (u : String) (a : List Answer) (c : Bool) (t : String) :
    (generatePsychologicalProfile u a c t).psych_profile.core_traits =
      coreTraitsOf (avgTone Tone.authenticity a) (avgTone Tone.verbosity a)
        (avgTone Tone.confidence a) (avgTone Tone.hesitation a)
        (dominantEmotionOf (a.map Answer.emotionDetected))
        ((a.map Answer.wordCount).sum) := rfl

/-- A JS `> a` comparison implies `> b` for any smaller bound `b` (also on NaN). -/
theorem JQ.gtQ_mono {x : JQ} {a b : ℚ} (hab : b ≤ a) (h : x.gtQ a = true) :
    x.gtQ b = true := by
  cases x with
  | nan => simp [JQ.gtQ] at h
  | q v =>
    simp [JQ.gtQ] at h ⊢
    linarith

/-- C4: the aggregator's dominantEmotion is a most frequent emotion label of
the session, and the tie-break favours the first-encountered emotion: a
session with emotions `[joy, sadness, joy]` yields `'joy'` (2 beats 1) and a
tied session `[joy, sadness]` also yields `'joy'` because joy came first
(object keys iterate in insertion order and the ES2019 sort is stable). -/
theorem C4_dominant_emotion :
    (∀ (u : String) (answers : List Answer) (c : Bool) (t : String) (e : String),
      (answers.map Answer.emotionDetected).count e ≤
        (answers.map Answer.emotionDetected).count
          ((generatePsychologicalProfile u answers c
            t).psych_profile.response_patterns.dominant_emotion)) ∧
    (∀ (u : String) (answers : List Answer) (c : Bool) (t : String),
      answers.map Answer.emotionDetected = ["joy", "sadness", "joy"] →
      (generatePsychologicalProfile u answers c
        t).psych_profile.response_patterns.dominant_emotion = "joy") ∧
    (∀ (u : String) (answers : List Answer) (c : Bool) (t : String),
      answers.map Answer.emotionDetected = ["joy", "sadness"] →
      (generatePsychologicalProfile u answers c
        t).psych_profile.response_patterns.dominant_emotion = "joy") := by
  refine ⟨fun u answers c t e => ?_, fun u answers c t h => ?_,
    fun u answers c t h => ?_⟩
  · rw [gen_dominant]
    exact count_le_dominant _ _
  · rw [gen_dominant, h]
    decide
  · rw [gen_dominant, h]
    decide

/-- C3 (amended): emotion detection returns the label with the strictly
greatest keyword-match count; the zero-match case yields `'neutral'`; and a
tie at the maximal count resolves to the first-listed emotion among the tied
ones (not to `'neutral'`), in both questionnaire analyzers. -/
theorem C3_amended_detection :
    ((∀ words, (∀ p ∈ emotionTable psychEmotionKeywords words, p.2 = 0) →
        detectEmotionFrom psychEmotionKeywords words = "neutral") ∧
      (∀ words l1 (p : String × Nat) l2,
        emotionTable psychEmotionKeywords words = l1 ++ p :: l2 → 0 < p.2 →
        (∀ q ∈ l1, q.2 < p.2) → (∀ q ∈ l2, q.2 ≤ p.2) →
        detectEmotionFrom psychEmotionKeywords words = p.1)) ∧
    ((∀ words, (∀ p ∈ emotionTable enhEmotionKeywords words, p.2 = 0) →
        detectEmotionFrom enhEmotionKeywords words = "neutral") ∧
      (∀ words l1 (p : String × Nat) l2,
        emotionTable enhEmotionKeywords words = l1 ++ p :: l2 → 0 < p.2 →
        (∀ q ∈ l1, q.2 < p.2) → (∀ q ∈ l2, q.2 ≤ p.2) →
        detectEmotionFrom enhEmotionKeywords words = p.1)) :=
  ⟨⟨fun words h => detect_zero_neutral _ words h,
    fun words l1 p l2 he hp h1 h2 =>
      detect_firstMax _ words l1 l2 p he hp h1 h2⟩,
   ⟨fun words h => detect_zero_neutral _ words h,
    fun words l1 p l2 he hp h1 h2 =>
      detect_firstMax _ words l1 l2 p he hp h1 h2⟩⟩

/-- C7: archetype classification is the ordered decision list evaluated top
to bottom with the first matching rule winning, and a session matching none
of the four rules gets the configured default, `'The Balanced Explorer'`. -/
theorem C7_archetype_fallback (u : String) (answers : List Answer) (c : Bool)
    (t : String) :
    (storytellerRule (avgTone Tone.verbosity answers)
        (avgTone Tone.authenticity answers) = true →
      (generatePsychologicalProfile u answers c t).psych_profile.archetype =
        "The Reflective Storyteller") ∧
    (storytellerRule (avgTone Tone.verbosity answers)
        (avgTone Tone.authenticity answers) = false →
      visionaryRule (avgTone Tone.confidence answers)
        (avgTone Tone.hesitation answers) = true →
      (generatePsychologicalProfile u answers c t).psych_profile.archetype =
        "The Decisive Visionary") ∧
    (storytellerRule (avgTone Tone.verbosity answers)
        (avgTone Tone.authenticity answers) = false →
      visionaryRule (avgTone Tone.confidence answers)
        (avgTone Tone.hesitation answers) = false →
      analystRule (avgTone Tone.hesitation answers)
        (avgTone Tone.authenticity answers) = true →
      (generatePsychologicalProfile u answers c t).psych_profile.archetype =
        "The Thoughtful Analyst") ∧
    (storytellerRule (avgTone Tone.verbosity answers)
        (avgTone Tone.authenticity answers) = false →
      visionaryRule (avgTone Tone.confidence answers)
        (avgTone Tone.hesitation answers) = false →
      analystRule (avgTone Tone.hesitation answers)
        (avgTone Tone.authenticity answers) = false →
      observerRule (dominantEmotionOf (answers.map Answer.emotionDetected)) =
        true →
      (generatePsychologicalProfile u answers c t).psych_profile.archetype =
        "The Philosophical Observer") ∧
    (storytellerRule (avgTone Tone.verbosity answers)
        (avgTone Tone.authenticity answers) = false →
      visionaryRule (avgTone Tone.confidence answers)
        (avgTone Tone.hesitation answers) = false →
      analystRule (avgTone Tone.hesitation answers)
        (avgTone Tone.authenticity answers) = false →
      observerRule (dominantEmotionOf (answers.map Answer.emotionDetected)) =
        false →
      (generatePsychologicalProfile u answers c t).psych_profile.archetype =
        "The Balanced Explorer") := by
  refine ⟨fun h1 => ?_, fun h1 h2 => ?_, fun h1 h2 h3 => ?_,
    fun h1 h2 h3 h4 => ?_, fun h1 h2 h3 h4 => ?_⟩ <;>
    rw [gen_archetype] <;>
    simp [selectArchetype, h1]
  · simp [h2]
  · simp [h2, h3]
  · simp [h2, h3, h4]
  · simp [h2, h3, h4]

/-- C9: the session is complete exactly when the number of recorded responses
reaches `min(8, number of loaded questions)`; with fewer than 8 questions in
the bank, answering every available question already completes the session,
below the documented 8-answer threshold. -/
theorem C9_isComplete (s : PsychologySession) :
    (s.isComplete = true ↔ min 8 s.questions.length ≤ s.responses.length) ∧
    (s.questions.length < 8 → s.questions.length ≤ s.responses.length →
      s.isComplete = true) := by
  constructor
  · simp [PsychologySession.isComplete]
  · intro h1 h2
    simp [PsychologySession.isComplete]
    omega

/-- C10: whenever the shadow trait `'tendency to overthink'` (mean hesitation
above 0.5) is included in a profile, the core trait `'thoughtful'` (mean
hesitation above 0.4) is included as well — both tests read the same averaged
hesitation and 0.5 > 0.4. -/
theorem C10_overthink_implies_thoughtful (u : String) (answers : List Answer)
    (c : Bool) (t : String)
    (h : "tendency to overthink" ∈
      (generatePsychologicalProfile u answers c t).psych_profile.shadow_traits) :
    "thoughtful" ∈
      (generatePsychologicalProfile u answers c t).psych_profile.core_traits := by
  rw [gen_shadow] at h
  rw [gen_core]
  have hb : (avgTone Tone.hesitation answers).gtQ (5/10) = true := by
    by_contra hb2
    rw [Bool.not_eq_true] at hb2
    unfold shadowTraitsOf at h
    rw [hb2] at h
    simp at h
  have h4 : (avgTone Tone.hesitation answers).gtQ (4/10) = true :=
    JQ.gtQ_mono (by norm_num) hb
  unfold coreTraitsOf
  rw [h4]
  simp

/-- C2 (amended): the aggregator is deterministic in its full input — the
answer list, the consent flag, and the clock value it reads while building
the result; every field except `session_completed_at` depends only on the
answers and inputs, while `session_completed_at` is exactly the clock
reading, so repeated calls are byte-identical except for that timestamp. -/
theorem C2_amended_determinism (u : String) (a : List Answer) (c : Bool)
    (t1 t2 : String) :
    (generatePsychologicalProfile u a c t1).name =
      (generatePsychologicalProfile u a c t2).name ∧
    (generatePsychologicalProfile u a c t1).psych_profile =
      (generatePsychologicalProfile u a c t2).psych_profile ∧
    (generatePsychologicalProfile u a c t1).answers =
      (generatePsychologicalProfile u a c t2).answers ∧
    (generatePsychologicalProfile u a c t1).data_consent =
      (generatePsychologicalProfile u a c t2).data_consent ∧
    (generatePsychologicalProfile u a c t1).session_completed_at = t1 :=
  ⟨rfl, rfl, rfl, rfl, rfl⟩

/-- C1 (amended): on an empty answer sequence the aggregator does not signal
a contract violation; it divides by zero (`0/0`, JS `NaN`), and returns a
profile whose averaged statistics are NaN, whose dominant emotion defaults to
`'neutral'`, whose archetype is `'The Philosophical Observer'` (the
dominant-emotion rule fires on the `'neutral'` default), and whose trait
lists are empty (every NaN comparison is false). -/
theorem C1_amended_empty_aggregate (u : String) (c : Bool) (t : String) :
    (generatePsychologicalProfile u [] c t).psych_profile.honesty_index =
      JQ.nan ∧
    (generatePsychologicalProfile u [] c
      t).psych_profile.response_patterns.avg_response_time = JQ.nan ∧
    (generatePsychologicalProfile u [] c
      t).psych_profile.response_patterns.dominant_emotion = "neutral" ∧
    (generatePsychologicalProfile u [] c t).psych_profile.archetype =
      "The Philosophical Observer" ∧
    (generatePsychologicalProfile u [] c t).psych_profile.core_traits = [] ∧
    (generatePsychologicalProfile u [] c t).psych_profile.shadow_traits = [] :=
  ⟨rfl, rfl, rfl, rfl, rfl, rfl⟩

/-! ### Concrete evaluations: counterexamples and witnesses.
The Batteries rational operations are marked irreducible upstream; they are
reset to their default reducibility here so that `decide` and `rfl` can
evaluate the embedded JS arithmetic on concrete inputs. -/

section ConcreteEvaluation

attribute [local semireducible] Rat.mul Rat.add Rat.sub Rat.inv Rat.ofScientific

/-- C1 (counterexample): called on the empty answer list, the aggregator
silently returns a profile — its honesty index is the NaN produced by the
`0/0` average and its archetype is `'The Philosophical Observer'` — rather
than signalling a precondition violation. -/
theorem C1_counterexample :
    (generatePsychologicalProfile "user" [] false
      "2025-01-01T00:00:00.000Z").psych_profile.honesty_index = JQ.nan ∧
    (generatePsychologicalProfile "user" [] false
      "2025-01-01T00:00:00.000Z").psych_profile.archetype =
        "The Philosophical Observer" :=
  ⟨rfl, rfl⟩

/-- C2 (counterexample): two calls of the aggregator on the identical answer
list return different results when the clock has advanced between them,
because the result embeds `new Date().toISOString()` as
`session_completed_at`. -/
theorem C2_counterexample :
    generatePsychologicalProfile "user" [answerWith "joy" halfTone 1 3] false
        "2025-01-01T00:00:00.000Z" ≠
      generatePsychologicalProfile "user" [answerWith "joy" halfTone 1 3] false
        "2025-01-02T00:00:00.000Z" := by
  decide

/-- C3 (counterexample): on input `"happy sad"` both joy and sadness match
exactly one keyword — a tie at the maximal count — yet detection returns
`'joy'` (the first-listed tied emotion), not `'neutral'` as the claim
states. -/
theorem C3_counterexample :
    emotionTable psychEmotionKeywords (wordsOf ("happy sad".toList)) =
      [("joy", 1), ("sadness", 1), ("anger", 0), ("fear", 0), ("surprise", 0),
       ("contemplative", 0), ("neutral", 0)] ∧
    (psychAnalyzeResponse ("happy sad".toList)).1 = "joy" ∧
    "joy" ≠ "neutral" :=
  ⟨by decide, by decide, by decide⟩

/-- C3 (witness): the amended characterization applied at concrete inputs —
the tied table of `"happy sad"` resolves to `'joy'` in both analyzers, and a
keyword-free input resolves to `'neutral'` in both. -/
theorem C3_witness :
    detectEmotionFrom psychEmotionKeywords (wordsOf ("happy sad".toList)) =
      "joy" ∧
    detectEmotionFrom psychEmotionKeywords (wordsOf ("xyz".toList)) =
      "neutral" ∧
    detectEmotionFrom enhEmotionKeywords (wordsOf ("happy sad".toList)) =
      "joy" ∧
    detectEmotionFrom enhEmotionKeywords (wordsOf ("xyz".toList)) =
      "neutral" :=
  ⟨C3_amended_detection.1.2 (wordsOf ("happy sad".toList)) [] ("joy", 1)
      [("sadness", 1), ("anger", 0), ("fear", 0), ("surprise", 0),
       ("contemplative", 0), ("neutral", 0)]
      (by decide) (by decide) (by decide) (by decide),
   C3_amended_detection.1.1 (wordsOf ("xyz".toList)) (by decide),
   C3_amended_detection.2.2 (wordsOf ("happy sad".toList)) [] ("joy", 1)
      [("sadness", 1), ("anger", 0), ("fear", 0), ("surprise", 0),
       ("contemplative", 0), ("confident", 0), ("vulnerable", 0),
       ("neutral", 0)]
      (by decide) (by decide) (by decide) (by decide),
   C3_amended_detection.2.1 (wordsOf ("xyz".toList)) (by decide)⟩

/-- C4 (witness): the two tie-break scenarios at concrete answer lists. -/
theorem C4_witness :
    (generatePsychologicalProfile "u"
      [answerWith "joy" halfTone 1 3, answerWith "sadness" halfTone 1 3,
       answerWith "joy" halfTone 1 3] false
      "T").psych_profile.response_patterns.dominant_emotion = "joy" ∧
    (generatePsychologicalProfile "u"
      [answerWith "joy" halfTone 1 3, answerWith "sadness" halfTone 1 3] false
      "T").psych_profile.response_patterns.dominant_emotion = "joy" :=
  ⟨C4_dominant_emotion.2.1 "u" _ false "T" (by decide),
   C4_dominant_emotion.2.2 "u" _ false "T" (by decide)⟩

/-- C6 (witness): a 2-word and a 3-word input (both under the 15- and
30-word caps) with monotone confidence and verbosity. -/
theorem C6_witness :
    (psychAnalyzeResponse ("one two".toList)).2.confidence ≤
      (psychAnalyzeResponse ("one two three".toList)).2.confidence ∧
    (psychAnalyzeResponse ("one two".toList)).2.verbosity ≤
      (psychAnalyzeResponse ("one two three".toList)).2.verbosity :=
  ⟨((C6_confidence_verbosity_monotone ("one two".toList)
      ("one two three".toList) (by decide)).1 (by decide)).1,
   ((C6_confidence_verbosity_monotone ("one two".toList)
      ("one two three".toList) (by decide)).2 (by decide)).1⟩

/-- C7 (witness): a one-answer session with mid-range tones (all 0.5) and
dominant emotion `'joy'` matches none of the four rules and falls back to
`'The Balanced Explorer'`. -/
theorem C7_witness :
    (generatePsychologicalProfile "u" [answerWith "joy" halfTone 1 3] false
      "T").psych_profile.archetype = "The Balanced Explorer" :=
  (C7_archetype_fallback "u" [answerWith "joy" halfTone 1 3] false
    "T").2.2.2.2 (by decide) (by decide) (by decide) (by decide)

/-- C8 (counterexample): in the psychological questionnaire flow, analyzing
the empty string yields authenticity exactly 1 — the formula
`max(0.3, 1 - 0 + 0 - 0)` evaluates to 1 — not 0.3 as the claim states. -/
theorem C8_counterexample :
    psychAnalyzeResponse [] = ("neutral", ⟨0, 0, 0, 0, 1⟩) ∧
    (1 : ℚ) ≠ 3/10 :=
  ⟨by decide, by decide⟩

/-- C8 (amended): both questionnaire analyzers keep authenticity at or above
the 0.3 floor on every input; the empty string yields emotion `'neutral'` and
zero confidence, energy, verbosity and hesitation in both, with authenticity
exactly 0.3 in the enhanced analyzer but 1 in the psychological analyzer (its
formula rewards the absence of hesitation and energy). -/
theorem C8_amended_authenticity_floor :
    (∀ text : List Char, 3/10 ≤ (psychAnalyzeResponse text).2.authenticity) ∧
    (∀ text : List Char, 3/10 ≤ (enhAnalyzeResponse text).2.authenticity) ∧
    psychAnalyzeResponse [] = ("neutral", ⟨0, 0, 0, 0, 1⟩) ∧
    enhAnalyzeResponse [] = ("neutral", ⟨0, 0, 0, 0, 3/10⟩) :=
  ⟨psych_auth_ge, enh_auth_ge, by decide, by decide⟩

/-- C9 (witness): a session whose bank holds 5 questions is complete after 5
responses, below the 8-answer threshold. -/
theorem C9_witness :
    smallSession.isComplete = true ∧ smallSession.questions.length < 8 ∧
    smallSession.questions.length ≤ smallSession.responses.length :=
  ⟨(C9_isComplete smallSession).2 (by decide) (by decide), by decide, by decide⟩

/-- C10 (witness): a one-answer session with hesitation 0.6 includes the
shadow trait `'tendency to overthink'`, hence also the core trait
`'thoughtful'`. -/
theorem C10_witness :
    "thoughtful" ∈ (generatePsychologicalProfile "u"
      [answerWith "joy" hesitantTone 1 3] false
      "T").psych_profile.core_traits :=
  C10_overthink_implies_thoughtful "u" [answerWith "joy" hesitantTone 1 3]
    false "T" (by decide)

end ConcreteEvaluation

end AstroPsyche
